import Mathlib

/-!
Verification of the credit-simulator scoring engine.

The engine lives in src/src/main.jsx: `calculateWeights` (lines 337-394),
`calculateWorstCaseImpact` (lines 399-421) and `runSimulation`
(lines 426-521).  All JavaScript numbers are modelled as exact rationals;
`Math.round` and `Number.prototype.toFixed` (ties picked upward, i.e. the
larger candidate) are modelled by `jsRound` below.
-/

namespace CreditSim

/-- JS `Math.round`: round half up (floor of x + 1/2), also the tie rule of
`toFixed`. -/
def jsRound (q : ℚ) : ℤ := ⌊q + 1/2⌋

/-- JS `parseFloat(x.toFixed(4))`: round to 4 decimal places. -/
def roundTo4 (q : ℚ) : ℚ := (jsRound (q * 10000) : ℚ) / 10000

/-- JS `x.toFixed(1)` read back as a number: round to 1 decimal place. -/
def roundTo1 (q : ℚ) : ℚ := (jsRound (q * 10) : ℚ) / 10

/-- The five FICO factor weights (the object built by `calculateWeights`). -/
structure Weights where
  paymentHistory : ℚ
  utilization : ℚ
  accountAge : ℚ
  creditMix : ℚ
  newCredit : ℚ
deriving DecidableEq, Repr

/-- Sum of the five weights (JS `Object.values(baseWeights).reduce`). -/
def Weights.sum (w : Weights) : ℚ :=
  w.paymentHistory + w.utilization + w.accountAge + w.creditMix + w.newCredit

/-- The `dti` value of main.jsx line 358: guarded division with the
maximal-risk fallback 1 when income is not positive. -/
def dtiOf (totalDebt monthlyIncome : ℚ) : ℚ :=
  if monthlyIncome > 0 then totalDebt / (monthlyIncome * 12) else 1

/-- Rules 1-4 of `calculateWeights` (main.jsx lines 338-385): the working
copy of the base weights after the ordered adjustment cascade, before
normalization. -/
def adjustWeights (ficoScore totalDebt monthlyIncome positiveAccounts
    oldestAccountAge totalCreditLimit : ℚ) : Weights :=
  let w : Weights := ⟨0.35, 0.30, 0.15, 0.10, 0.10⟩
  -- 1. Adjust for FICO tier
  let w :=
    if ficoScore ≥ 740 then
      { w with paymentHistory := 0.25, utilization := 0.40, accountAge := 0.20 }
    else if ficoScore ≤ 580 then
      { w with paymentHistory := 0.45, utilization := 0.25, newCredit := 0.15 }
    else w
  -- 2. Adjust for DTI and Utilization
  let w :=
    if dtiOf totalDebt monthlyIncome > 0.45 then
      { w with utilization := min 0.45 (w.utilization + 0.05),
               paymentHistory := max 0.25 (w.paymentHistory - 0.05) }
    else w
  -- Check overall utilization if limit is provided
  let w :=
    if totalCreditLimit > 0 then
      if totalDebt / totalCreditLimit * 100 < 30 then
        { w with utilization := max 0.20 (w.utilization - 0.05) }
      else w
    else w
  -- 3. Adjust for Profile Anchors (Positive Accounts)
  let w :=
    if positiveAccounts > 0 then
      { w with paymentHistory := max 0.30 (w.paymentHistory - 0.05),
               creditMix := min 0.20 (w.creditMix + 0.05) }
    else w
  -- 4. Adjust for Account Age
  if oldestAccountAge < 4 then
    { w with accountAge := max 0.05 (w.accountAge - 0.05),
             newCredit := min 0.20 (w.newCredit + 0.05) }
  else if oldestAccountAge > 10 then
    { w with accountAge := min 0.25 (w.accountAge + 0.05) }
  else w

/-- Step 5 of `calculateWeights` (main.jsx lines 387-391): divide each
weight by the sum, then round to 4 decimals. -/
def normalizeWeights (w : Weights) : Weights :=
  ⟨roundTo4 (w.paymentHistory / w.sum), roundTo4 (w.utilization / w.sum),
   roundTo4 (w.accountAge / w.sum), roundTo4 (w.creditMix / w.sum),
   roundTo4 (w.newCredit / w.sum)⟩

/-- `calculateWeights` of main.jsx lines 337-394. -/
def calculateWeights (ficoScore totalDebt monthlyIncome positiveAccounts
    oldestAccountAge totalCreditLimit : ℚ) : Weights :=
  normalizeWeights (adjustWeights ficoScore totalDebt monthlyIncome
    positiveAccounts oldestAccountAge totalCreditLimit)

/-- The numeric input record (`numericData` of main.jsx lines 428-440),
after coercion; `scenarioType` stays a string, compared against the literal
`pre-enrollment` exactly as the code does. -/
structure SimData where
  ficoScore : ℚ
  totalDebt : ℚ
  monthlyIncome : ℚ
  utilization : ℚ
  accountsEnrolling : ℚ
  positiveAccounts : ℚ
  oldestAccountAge : ℚ
  programTimeline : ℚ
  totalCreditLimit : ℚ
  monthsInProgram : ℚ
  scenarioType : String
  securedCard : Bool
  creditBuilder : Bool
  authorizedUser : Bool
deriving DecidableEq, Repr

/-- `calculateWorstCaseImpact` of main.jsx lines 399-421.  `Math.round`
produces an integer, so the result is an integer clamped to [20, 150]. -/
def calculateWorstCaseImpact (data : SimData) (weights : Weights) : ℤ :=
  let utilizationFactor := max 0 ((100 - data.utilization) / 10)
  let drop := utilizationFactor * 5 * (weights.utilization * 2)
  let drop := drop + max 0 ((data.ficoScore - 500) / 20) * 5
  let drop := drop - data.positiveAccounts * 10
  let drop := if data.oldestAccountAge > 10 then drop - 15 else drop
  min 150 (max 20 (jsRound drop))

/-- The weights computed inside `runSimulation` (main.jsx lines 443-450). -/
def weightsOf (nd : SimData) : Weights :=
  calculateWeights nd.ficoScore nd.totalDebt nd.monthlyIncome
    nd.positiveAccounts nd.oldestAccountAge nd.totalCreditLimit

/-- `impactPenalty` of main.jsx lines 454-463: the worst-case impact for
pre-enrollment, zero otherwise. -/
def impactPenaltyOf (nd : SimData) : ℤ :=
  if nd.scenarioType = "pre-enrollment" then
    calculateWorstCaseImpact nd (weightsOf nd)
  else 0

/-- `lowPointScore` of main.jsx lines 458 and 461. -/
def lowPointOf (nd : SimData) : ℚ :=
  if nd.scenarioType = "pre-enrollment" then
    max 300 (nd.ficoScore - (impactPenaltyOf nd : ℚ))
  else nd.ficoScore

/-- `recoveryMonths` of main.jsx lines 453 and 462. -/
def recoveryMonthsOf (nd : SimData) : ℚ :=
  if nd.scenarioType = "pre-enrollment" then nd.programTimeline
  else max 12 (nd.programTimeline - nd.monthsInProgram)

/-- The credit-building tool gain of main.jsx lines 483-486. -/
def toolGainOf (nd : SimData) : ℚ :=
  (if nd.securedCard then 30 else 0) + (if nd.creditBuilder then 25 else 0) +
    (if nd.authorizedUser then 10 else 0)

/-- `totalPotentialGain` of main.jsx lines 467-487. -/
def totalPotentialGainOf (nd : SimData) : ℚ :=
  (weightsOf nd).utilization * 250 +
    (weightsOf nd).paymentHistory * 150 * (recoveryMonthsOf nd / 36) +
    (weightsOf nd).accountAge * 50 * (recoveryMonthsOf nd / 36) +
    toolGainOf nd

/-- `projectedScore` of main.jsx line 490: round first, then cap at 850. -/
def projectedScoreOf (nd : SimData) : ℚ :=
  ((min 850 (jsRound (lowPointOf nd + totalPotentialGainOf nd)) : ℤ) : ℚ)

/-- `postDTI` of main.jsx lines 493-499, before the display cap. -/
def postDTIOf (nd : SimData) : ℚ :=
  let debtSavings := nd.totalDebt * 0.55
  let postProgramDebt := nd.totalDebt - debtSavings
  let annualPostDebtPayment := postProgramDebt * 0.05
  let monthlyPostDebtPayment := annualPostDebtPayment / 12
  if nd.monthlyIncome > 0 then
    monthlyPostDebtPayment / nd.monthlyIncome * 100
  else 0

/-- The result record returned by `runSimulation` (main.jsx lines 506-520).
`postDTI` holds the numeric value of the one-decimal string the code
returns; the purely decorative `recoveryTime` display string is represented
by the numeric `recoveryMonths` it is printed from. -/
structure SimResult where
  initialScore : ℚ
  lowPointScore : ℚ
  projectedScore : ℚ
  scoreGain : ℚ
  postDTI : ℚ
  savings : ℚ
  impactPenalty : ℤ
  recoveryMonths : ℚ
  weights : Weights
  milestoneDipScore : ℚ
  milestoneStabilizationScore : ℚ
  milestoneRecoveryScore : ℚ
deriving DecidableEq, Repr

/-- `runSimulation` of main.jsx lines 426-521, on an already-numeric
record. -/
def runSimulation (nd : SimData) : SimResult :=
  let initialScore := nd.ficoScore
  let lowPointScore := lowPointOf nd
  let projectedScore := projectedScoreOf nd
  let totalGain := projectedScore - lowPointScore
  let stabilizationScore :=
    min initialScore (lowPointScore + (jsRound (totalGain * 0.15) : ℚ))
  let recoveryScore := lowPointScore + (jsRound (totalGain * 0.65) : ℚ)
  { initialScore := initialScore
    lowPointScore := lowPointScore
    projectedScore := projectedScore
    scoreGain := projectedScore - initialScore
    postDTI := roundTo1 (min 50 (postDTIOf nd))
    savings := nd.totalDebt * 0.55
    impactPenalty := impactPenaltyOf nd
    recoveryMonths := recoveryMonthsOf nd
    weights := weightsOf nd
    milestoneDipScore := lowPointScore
    milestoneStabilizationScore := stabilizationScore
    milestoneRecoveryScore := recoveryScore }

/-- Worked scenario A of the spec (pre-enrollment). -/
def scenarioA : SimData :=
  { ficoScore := 650
    totalDebt := 20000
    monthlyIncome := 4000
    utilization := 70
    accountsEnrolling := 5
    positiveAccounts := 1
    oldestAccountAge := 8
    programTimeline := 36
    totalCreditLimit := 30000
    monthsInProgram := 0
    scenarioType := "pre-enrollment"
    securedCard := true
    creditBuilder := true
    authorizedUser := false }

/-- The raw drop of spec section 4.2, written from the displayed formula
(for comparison with `calculateWorstCaseImpact` as embedded from the
code). -/
def rawDropSpec (utilizationPercent ficoScore positiveAccounts
    oldestAccountAgeYears wUtilization : ℚ) : ℚ :=
  max 0 ((100 - utilizationPercent) / 10) * 5 * (wUtilization * 2) +
    max 0 ((ficoScore - 500) / 20) * 5 - positiveAccounts * 10 -
    (if oldestAccountAgeYears > 10 then 15 else 0)

/-- The raw form-state record before the numeric coercion of main.jsx
lines 428-440: a numeric field is `none` when missing or non-numeric. -/
structure RawData where
  ficoScore : Option ℚ
  totalDebt : Option ℚ
  monthlyIncome : Option ℚ
  utilization : Option ℚ
  accountsEnrolling : Option ℚ
  positiveAccounts : Option ℚ
  oldestAccountAge : Option ℚ
  programTimeline : Option ℚ
  totalCreditLimit : Option ℚ
  monthsInProgram : Option ℚ
  scenarioType : String
  securedCard : Bool
  creditBuilder : Bool
  authorizedUser : Bool
deriving DecidableEq, Repr

/-- JS `Number(x) || dflt`: a missing or non-numeric field and the falsy
value 0 both fall back to the default. -/
def numOr (x : Option ℚ) (dflt : ℚ) : ℚ :=
  match x with
  | none => dflt
  | some v => if v = 0 then dflt else v

/-- The `numericData` coercion of main.jsx lines 428-440: every field goes
through `Number(x) || 0` except `programTimeline`, which defaults to 36. -/
def numericOf (raw : RawData) : SimData :=
  { ficoScore := numOr raw.ficoScore 0
    totalDebt := numOr raw.totalDebt 0
    monthlyIncome := numOr raw.monthlyIncome 0
    utilization := numOr raw.utilization 0
    accountsEnrolling := numOr raw.accountsEnrolling 0
    positiveAccounts := numOr raw.positiveAccounts 0
    oldestAccountAge := numOr raw.oldestAccountAge 0
    programTimeline := numOr raw.programTimeline 36
    totalCreditLimit := numOr raw.totalCreditLimit 0
    monthsInProgram := numOr raw.monthsInProgram 0
    scenarioType := raw.scenarioType
    securedCard := raw.securedCard
    creditBuilder := raw.creditBuilder
    authorizedUser := raw.authorizedUser }

/-- `runSimulation` as called from the form: coercion first, then the
numeric engine. -/
def runSimulationRaw (raw : RawData) : SimResult :=
  runSimulation (numericOf raw)

/-- Worked scenario B of the spec: scenario A switched to the
progress-tracker variant 12 months in. -/
def scenarioB : SimData :=
  { scenarioA with scenarioType := "progress-tracker", monthsInProgram := 12 }

/-- A progress-tracker input whose score sits below 300 (outside the
external validation contract, which the engine must still tolerate). -/
def lowFicoTracker : SimData :=
  { scenarioA with ficoScore := 100, scenarioType := "progress-tracker" }

/-- A pre-enrollment input with a score far above the FICO domain. -/
def extremeFico : SimData :=
  { scenarioA with ficoScore := 2000 }

/-- Scenario A with the income removed. -/
def zeroIncome : SimData :=
  { scenarioA with monthlyIncome := 0 }

/-- A contract-valid pre-enrollment input: top score, short timeline, no
anchors, no tools, low overall utilization. -/
def negGainInput : SimData :=
  { ficoScore := 850
    totalDebt := 2000
    monthlyIncome := 4000
    utilization := 30
    accountsEnrolling := 1
    positiveAccounts := 0
    oldestAccountAge := 5
    programTimeline := 12
    totalCreditLimit := 30000
    monthsInProgram := 0
    scenarioType := "pre-enrollment"
    securedCard := false
    creditBuilder := false
    authorizedUser := false }

/-- A raw record with every numeric field missing. -/
def emptyRaw : RawData :=
  { ficoScore := none
    totalDebt := none
    monthlyIncome := none
    utilization := none
    accountsEnrolling := none
    positiveAccounts := none
    oldestAccountAge := none
    programTimeline := none
    totalCreditLimit := none
    monthsInProgram := none
    scenarioType := "pre-enrollment"
    securedCard := false
    creditBuilder := false
    authorizedUser := false }

/-! ## Helper lemmas -/

/-- Rounding to 4 decimals moves a value by at most 1/20000. -/
lemma roundTo4_err (x : ℚ) :
    x - 1/20000 ≤ roundTo4 x ∧ roundTo4 x ≤ x + 1/20000 := by
  unfold roundTo4 jsRound
  have h1 := Int.floor_le (x * 10000 + 1/2)
  have h2 := Int.lt_floor_add_one (x * 10000 + 1/2)
  constructor <;> [linarith; linarith]

/-- Rounding to 4 decimals preserves nonnegativity. -/
lemma roundTo4_nonneg (x : ℚ) (hx : 0 ≤ x) : 0 ≤ roundTo4 x := by
  unfold roundTo4 jsRound
  have h : (0:ℤ) ≤ ⌊x * 10000 + 1/2⌋ := Int.le_floor.mpr (by push_cast; linarith)
  have h' : (0:ℚ) ≤ (⌊x * 10000 + 1/2⌋ : ℚ) := by exact_mod_cast h
  linarith

/-- The worst-case impact is clamped into [20, 150] for every input and
every weight record. -/
lemma impact_mem (d : SimData) (w : Weights) :
    20 ≤ calculateWorstCaseImpact d w ∧ calculateWorstCaseImpact d w ≤ 150 := by
  simp only [calculateWorstCaseImpact]
  exact ⟨le_min (by norm_num) (le_max_left _ _), min_le_left _ _⟩

/-- The tool gain is a sum of nonnegative contributions. -/
lemma toolGain_nonneg (nd : SimData) : 0 ≤ toolGainOf nd := by
  unfold toolGainOf
  split_ifs <;> norm_num

/-- The record returned by `runSimulation`, field by field. -/
lemma runSim_fields (nd : SimData) :
    (runSimulation nd).initialScore = nd.ficoScore ∧
    (runSimulation nd).lowPointScore = lowPointOf nd ∧
    (runSimulation nd).projectedScore = projectedScoreOf nd ∧
    (runSimulation nd).scoreGain = projectedScoreOf nd - nd.ficoScore ∧
    (runSimulation nd).postDTI = roundTo1 (min 50 (postDTIOf nd)) ∧
    (runSimulation nd).impactPenalty = impactPenaltyOf nd ∧
    (runSimulation nd).recoveryMonths = recoveryMonthsOf nd ∧
    (runSimulation nd).milestoneDipScore = lowPointOf nd ∧
    (runSimulation nd).milestoneStabilizationScore =
      min nd.ficoScore (lowPointOf nd +
        (jsRound ((projectedScoreOf nd - lowPointOf nd) * 0.15) : ℚ)) ∧
    (runSimulation nd).milestoneRecoveryScore =
      lowPointOf nd + (jsRound ((projectedScoreOf nd - lowPointOf nd) * 0.65) : ℚ) := by
  exact ⟨rfl, rfl, rfl, rfl, rfl, rfl, rfl, rfl, rfl, rfl⟩

/-! ## Claim theorems -/

/-- C1: on the pre-enrollment worked scenario A, the composed simulation
returns the exact weights, impact penalty, low point, projected score,
score gain, savings, post-program DTI and milestone scores listed in the
spec. -/
theorem scenarioA_matches_spec :
    (runSimulation scenarioA).weights = ⟨0.30, 0.30, 0.15, 0.15, 0.10⟩ ∧
    (runSimulation scenarioA).impactPenalty = 37 ∧
    (runSimulation scenarioA).lowPointScore = 613 ∧
    (runSimulation scenarioA).projectedScore = 796 ∧
    (runSimulation scenarioA).scoreGain = 146 ∧
    (runSimulation scenarioA).savings = 11000 ∧
    (runSimulation scenarioA).postDTI = 0.9 ∧
    (runSimulation scenarioA).milestoneStabilizationScore = 640 ∧
    (runSimulation scenarioA).milestoneRecoveryScore = 732 := by
  simp only [runSimulation, impactPenaltyOf, lowPointOf, recoveryMonthsOf,
    projectedScoreOf, totalPotentialGainOf, toolGainOf, postDTIOf,
    calculateWorstCaseImpact, weightsOf, calculateWeights, adjustWeights,
    normalizeWeights, dtiOf, scenarioA, Weights.sum, roundTo4, roundTo1,
    jsRound]
  norm_num [min_def, max_def, Weights.mk.injEq]

/-- C3: for every input and every weight record, the worst-case impact is
an integer in [20, 150], equal to the section 4.2 raw drop rounded
half-up first and clamped second. -/
theorem impact_round_then_clamp_in_range (d : SimData) (w : Weights) :
    20 ≤ calculateWorstCaseImpact d w ∧
    calculateWorstCaseImpact d w ≤ 150 ∧
    calculateWorstCaseImpact d w =
      min 150 (max 20 (jsRound (rawDropSpec d.utilization d.ficoScore
        d.positiveAccounts d.oldestAccountAge w.utilization))) := by
  refine ⟨(impact_mem d w).1, (impact_mem d w).2, ?_⟩
  simp only [calculateWorstCaseImpact, rawDropSpec]
  split_ifs <;> ring_nf

/-- C4: any input whose scenario type is `progress-tracker` takes the
in-program branch: no new impact, the current score is the low point, and
the recovery window is the remaining timeline floored at 12 months. -/
theorem progress_tracker_outputs (nd : SimData)
    (h : nd.scenarioType = "progress-tracker") :
    (runSimulation nd).impactPenalty = 0 ∧
    (runSimulation nd).lowPointScore = nd.ficoScore ∧
    (runSimulation nd).recoveryMonths =
      max 12 (nd.programTimeline - nd.monthsInProgram) := by
  have hne : nd.scenarioType ≠ "pre-enrollment" := by rw [h]; decide
  refine ⟨?_, ?_, ?_⟩ <;>
    simp only [runSimulation, impactPenaltyOf, lowPointOf, recoveryMonthsOf,
      if_neg hne]

/-- C4 witness: worked scenario B gives zero penalty, a 650 low point and
24 recovery months. -/
theorem progress_tracker_outputs_witness :
    (runSimulation scenarioB).impactPenalty = 0 ∧
    (runSimulation scenarioB).lowPointScore = 650 ∧
    (runSimulation scenarioB).recoveryMonths = 24 := by
  obtain ⟨h1, h2, h3⟩ := progress_tracker_outputs scenarioB rfl
  refine ⟨h1, ?_, ?_⟩
  · rw [h2]; norm_num [scenarioB, scenarioA]
  · rw [h3]; norm_num [scenarioB, scenarioA, max_def]

/-- C5 counterexample: a progress-tracker input with ficoScore 100 (legal
for the engine, outside the external contract) yields a low point of 100,
refuting the unconditional 300 floor. -/
theorem tracker_low_fico_breaks_floor :
    (runSimulation lowFicoTracker).lowPointScore < 300 := by
  have hne : lowFicoTracker.scenarioType ≠ "pre-enrollment" := by decide
  obtain ⟨-, hlow, -⟩ := runSim_fields lowFicoTracker
  rw [hlow]
  unfold lowPointOf
  rw [if_neg hne]
  norm_num [lowFicoTracker, scenarioA]

/-- C5 amended: the 850 cap on the projected score holds for every input;
the 300 floor on the low point holds for every pre-enrollment input, and
otherwise exactly when the incoming score itself is at least 300 (the
progress-tracker branch copies the score unclamped). -/
theorem score_bounds_refined (nd : SimData) :
    (runSimulation nd).projectedScore ≤ 850 ∧
    (nd.scenarioType = "pre-enrollment" →
      300 ≤ (runSimulation nd).lowPointScore) ∧
    (300 ≤ nd.ficoScore → 300 ≤ (runSimulation nd).lowPointScore) := by
  obtain ⟨-, hlow, hproj, -⟩ := runSim_fields nd
  refine ⟨?_, ?_, ?_⟩
  · rw [hproj]
    have h : (min 850 (jsRound (lowPointOf nd + totalPotentialGainOf nd)) : ℤ)
        ≤ 850 := min_le_left _ _
    unfold projectedScoreOf
    exact_mod_cast h
  · intro hpre
    rw [hlow]
    unfold lowPointOf
    rw [if_pos hpre]
    exact le_max_left _ _
  · intro hfico
    rw [hlow]
    unfold lowPointOf
    split_ifs
    · exact le_max_left _ _
    · exact hfico

/-- C5 witness: both refined bounds evaluated on scenario A. -/
theorem score_bounds_refined_witness :
    (runSimulation scenarioA).projectedScore ≤ 850 ∧
    300 ≤ (runSimulation scenarioA).lowPointScore := by
  exact ⟨(score_bounds_refined scenarioA).1,
    (score_bounds_refined scenarioA).2.1 rfl⟩

/-- C7: with zero income the weight model takes the dti = 1 maximal-risk
fallback instead of dividing, and the reported post-program DTI is 0. -/
theorem zero_income_guarded (nd : SimData) (h : nd.monthlyIncome = 0) :
    dtiOf nd.totalDebt nd.monthlyIncome = 1 ∧
    (runSimulation nd).postDTI = 0 := by
  constructor
  · rw [h]; unfold dtiOf; rw [if_neg (by norm_num)]
  · obtain ⟨-, -, -, -, hdti, -⟩ := runSim_fields nd
    rw [hdti]
    unfold postDTIOf
    rw [h]
    norm_num [roundTo1, jsRound, min_def]

/-- C7 witness: scenario A with the income removed. -/
theorem zero_income_guarded_witness :
    dtiOf zeroIncome.totalDebt zeroIncome.monthlyIncome = 1 ∧
    (runSimulation zeroIncome).postDTI = 0 := by
  exact zero_income_guarded zeroIncome rfl

/-- C9: the engine is a pure function of its input record: equal inputs
give equal output records, with no state carried between invocations. -/
theorem engine_deterministic (d₁ d₂ : SimData) (h : d₁ = d₂) :
    runSimulation d₁ = runSimulation d₂ := by
  rw [h]

/-- C9 witness: two invocations on scenario A coincide. -/
theorem engine_deterministic_witness :
    runSimulation scenarioA = runSimulation scenarioA :=
  engine_deterministic scenarioA scenarioA rfl

/-- C10: a contract-valid pre-enrollment input (score 850, short timeline,
no anchors, no tools) whose projected score lands below the initial score,
so the returned scoreGain is negative. -/
theorem valid_input_negative_score_gain :
    300 ≤ negGainInput.ficoScore ∧ negGainInput.ficoScore ≤ 850 ∧
    1000 < negGainInput.totalDebt ∧ 0 < negGainInput.monthlyIncome ∧
    negGainInput.scenarioType = "pre-enrollment" ∧
    (runSimulation negGainInput).scoreGain < 0 := by
  refine ⟨by norm_num [negGainInput], by norm_num [negGainInput],
    by norm_num [negGainInput], by norm_num [negGainInput], rfl, ?_⟩
  simp only [runSimulation, impactPenaltyOf, lowPointOf, recoveryMonthsOf,
    projectedScoreOf, totalPotentialGainOf, toolGainOf,
    calculateWorstCaseImpact, weightsOf, calculateWeights, adjustWeights,
    normalizeWeights, dtiOf, negGainInput, Weights.sum, roundTo4, jsRound]
  norm_num [min_def, max_def]

/-- C8: the raw-input entry point first coerces every missing or
non-numeric field to 0 (36 for the program timeline) and then runs the
numeric engine on the coerced record, so every raw record produces a
numeric result instead of a rejection. -/
theorem raw_fields_coerced (raw : RawData) :
    runSimulationRaw raw = runSimulation (numericOf raw) ∧
    (raw.ficoScore = none → (numericOf raw).ficoScore = 0) ∧
    (raw.totalDebt = none → (numericOf raw).totalDebt = 0) ∧
    (raw.monthlyIncome = none → (numericOf raw).monthlyIncome = 0) ∧
    (raw.utilization = none → (numericOf raw).utilization = 0) ∧
    (raw.accountsEnrolling = none → (numericOf raw).accountsEnrolling = 0) ∧
    (raw.positiveAccounts = none → (numericOf raw).positiveAccounts = 0) ∧
    (raw.oldestAccountAge = none → (numericOf raw).oldestAccountAge = 0) ∧
    (raw.totalCreditLimit = none → (numericOf raw).totalCreditLimit = 0) ∧
    (raw.monthsInProgram = none → (numericOf raw).monthsInProgram = 0) ∧
    (raw.programTimeline = none → (numericOf raw).programTimeline = 36) := by
  refine ⟨rfl, ?_, ?_, ?_, ?_, ?_, ?_, ?_, ?_, ?_, ?_⟩ <;>
    (intro h; simp [numericOf, numOr, h])

/-- C8 witness: the fully-missing raw record is coerced to zeros with the
36-month default timeline and still runs. -/
theorem raw_fields_coerced_witness :
    runSimulationRaw emptyRaw = runSimulation (numericOf emptyRaw) ∧
    (numericOf emptyRaw).ficoScore = 0 ∧
    (numericOf emptyRaw).totalDebt = 0 ∧
    (numericOf emptyRaw).monthlyIncome = 0 ∧
    (numericOf emptyRaw).utilization = 0 ∧
    (numericOf emptyRaw).accountsEnrolling = 0 ∧
    (numericOf emptyRaw).positiveAccounts = 0 ∧
    (numericOf emptyRaw).oldestAccountAge = 0 ∧
    (numericOf emptyRaw).totalCreditLimit = 0 ∧
    (numericOf emptyRaw).monthsInProgram = 0 ∧
    (numericOf emptyRaw).programTimeline = 36 := by
  obtain ⟨h0, h1, h2, h3, h4, h5, h6, h7, h8, h9, h10⟩ :=
    raw_fields_coerced emptyRaw
  exact ⟨h0, h1 rfl, h2 rfl, h3 rfl, h4 rfl, h5 rfl, h6 rfl, h7 rfl,
    h8 rfl, h9 rfl, h10 rfl⟩

set_option maxHeartbeats 4000000 in
/-- Exhaustive branch analysis of the adjustment cascade: bounds of every
pre-normalization weight, and of the utilization share of the running
sum. -/
lemma adjust_facts (f d m p a l : ℚ) :
    1/4 ≤ (adjustWeights f d m p a l).paymentHistory ∧
    (adjustWeights f d m p a l).paymentHistory ≤ 9/20 ∧
    1/5 ≤ (adjustWeights f d m p a l).utilization ∧
    (adjustWeights f d m p a l).utilization ≤ 9/20 ∧
    1/20 ≤ (adjustWeights f d m p a l).accountAge ∧
    (adjustWeights f d m p a l).accountAge ≤ 1/4 ∧
    1/10 ≤ (adjustWeights f d m p a l).creditMix ∧
    (adjustWeights f d m p a l).creditMix ≤ 1/5 ∧
    1/10 ≤ (adjustWeights f d m p a l).newCredit ∧
    (adjustWeights f d m p a l).newCredit ≤ 1/5 ∧
    2/11 ≤ (adjustWeights f d m p a l).utilization /
      (adjustWeights f d m p a l).sum ∧
    (adjustWeights f d m p a l).utilization /
      (adjustWeights f d m p a l).sum ≤ 9/22 := by
  unfold adjustWeights dtiOf
  split_ifs <;> norm_num [Weights.sum]

/-- Normalization brings the sum of the five weights within 1/4000 of 1
whenever the pre-normalization sum is positive. -/
lemma normalize_sum (w : Weights) (h : 0 < w.sum) :
    1 - 1/4000 ≤ (normalizeWeights w).sum ∧
    (normalizeWeights w).sum ≤ 1 + 1/4000 := by
  have he : w.paymentHistory / w.sum + w.utilization / w.sum +
      w.accountAge / w.sum + w.creditMix / w.sum + w.newCredit / w.sum = 1 := by
    rw [div_add_div_same, div_add_div_same, div_add_div_same,
      div_add_div_same]
    exact div_self (ne_of_gt h)
  have e1 := roundTo4_err (w.paymentHistory / w.sum)
  have e2 := roundTo4_err (w.utilization / w.sum)
  have e3 := roundTo4_err (w.accountAge / w.sum)
  have e4 := roundTo4_err (w.creditMix / w.sum)
  have e5 := roundTo4_err (w.newCredit / w.sum)
  have hsum_eq : (normalizeWeights w).sum =
      roundTo4 (w.paymentHistory / w.sum) + roundTo4 (w.utilization / w.sum) +
      roundTo4 (w.accountAge / w.sum) + roundTo4 (w.creditMix / w.sum) +
      roundTo4 (w.newCredit / w.sum) := rfl
  rw [hsum_eq]
  constructor <;>
    linarith [e1.1, e1.2, e2.1, e2.2, e3.1, e3.2, e4.1, e4.2, e5.1, e5.2]

/-- Derived facts about the normalized weight record: sum near 1,
utilization share within [9/50, 9/20], all weights nonnegative. -/
lemma weights_facts (f d m p a l : ℚ) :
    (1 - 1/1000 ≤ (calculateWeights f d m p a l).sum ∧
     (calculateWeights f d m p a l).sum ≤ 1 + 1/1000) ∧
    (9/50 ≤ (calculateWeights f d m p a l).utilization ∧
     (calculateWeights f d m p a l).utilization ≤ 9/20) ∧
    0 ≤ (calculateWeights f d m p a l).paymentHistory ∧
    0 ≤ (calculateWeights f d m p a l).accountAge ∧
    0 ≤ (calculateWeights f d m p a l).creditMix ∧
    0 ≤ (calculateWeights f d m p a l).newCredit := by
  obtain ⟨h1, h2, h3, h4, h5, h6, h7, h8, h9, h10, h11, h12⟩ :=
    adjust_facts f d m p a l
  have hS : 0 < (adjustWeights f d m p a l).sum := by
    unfold Weights.sum; linarith
  have hns := normalize_sum (adjustWeights f d m p a l) hS
  have hcw : calculateWeights f d m p a l =
      normalizeWeights (adjustWeights f d m p a l) := rfl
  have hu := roundTo4_err ((adjustWeights f d m p a l).utilization /
    (adjustWeights f d m p a l).sum)
  have hSle := le_of_lt hS
  refine ⟨⟨?_, ?_⟩, ⟨?_, ?_⟩, ?_, ?_, ?_, ?_⟩
  · rw [hcw]; linarith [hns.1]
  · rw [hcw]; linarith [hns.2]
  · rw [hcw]; show 9/50 ≤ roundTo4 _; linarith [hu.1]
  · rw [hcw]; show roundTo4 _ ≤ 9/20; linarith [hu.2]
  · rw [hcw]
    exact roundTo4_nonneg _ (div_nonneg (by linarith) hSle)
  · rw [hcw]
    exact roundTo4_nonneg _ (div_nonneg (by linarith) hSle)
  · rw [hcw]
    exact roundTo4_nonneg _ (div_nonneg (by linarith) hSle)
  · rw [hcw]
    exact roundTo4_nonneg _ (div_nonneg (by linarith) hSle)

/-- C2 counterexample: a low-tier profile with relief, positive accounts
and an old file normalizes utilization down to 0.1818, below the 0.20
clamp bound the claim asserts for the returned weights. -/
theorem normalized_utilization_can_dip_below_clamp :
    (calculateWeights 500 2000 4000 1 12 30000).utilization < 1/5 := by
  simp only [calculateWeights, adjustWeights, normalizeWeights, dtiOf,
    Weights.sum, roundTo4, jsRound]
  norm_num [min_def, max_def]

/-- C2 amended: for every profile the five returned weights sum to 1
within one thousandth; the documented clamp bounds hold for the
pre-normalization weights (utilization within [0.20, 0.45]), while the
returned, normalized utilization weight lies in the wider band
[0.18, 0.45]. -/
theorem weight_normalization_refined (f d m p a l : ℚ) :
    (1 - 1/1000 ≤ (calculateWeights f d m p a l).sum ∧
     (calculateWeights f d m p a l).sum ≤ 1 + 1/1000) ∧
    (1/5 ≤ (adjustWeights f d m p a l).utilization ∧
     (adjustWeights f d m p a l).utilization ≤ 9/20) ∧
    (9/50 ≤ (calculateWeights f d m p a l).utilization ∧
     (calculateWeights f d m p a l).utilization ≤ 9/20) := by
  obtain ⟨hs, hu, -⟩ := weights_facts f d m p a l
  obtain ⟨-, -, h3, h4, -⟩ := adjust_facts f d m p a l
  exact ⟨hs, ⟨h3, h4⟩, hu⟩

/-- When the income, debt and limit fields feed `weightsOf`, the total
potential gain is at least 1 whenever the recovery window is
nonnegative (the utilization term alone contributes at least 45). -/
lemma gain_ge (nd : SimData) (h3 : 0 ≤ recoveryMonthsOf nd) :
    (1:ℚ) ≤ totalPotentialGainOf nd := by
  obtain ⟨-, ⟨hu, -⟩, hph, ha, -, -⟩ := weights_facts nd.ficoScore nd.totalDebt
    nd.monthlyIncome nd.positiveAccounts nd.oldestAccountAge nd.totalCreditLimit
  have htool := toolGain_nonneg nd
  have hrm : 0 ≤ recoveryMonthsOf nd / 36 := div_nonneg h3 (by norm_num)
  unfold totalPotentialGainOf weightsOf
  have t1 : 0 ≤ (calculateWeights nd.ficoScore nd.totalDebt nd.monthlyIncome
      nd.positiveAccounts nd.oldestAccountAge nd.totalCreditLimit).paymentHistory *
      150 * (recoveryMonthsOf nd / 36) :=
    mul_nonneg (mul_nonneg hph (by norm_num)) hrm
  have t2 : 0 ≤ (calculateWeights nd.ficoScore nd.totalDebt nd.monthlyIncome
      nd.positiveAccounts nd.oldestAccountAge nd.totalCreditLimit).accountAge *
      50 * (recoveryMonthsOf nd / 36) :=
    mul_nonneg (mul_nonneg ha (by norm_num)) hrm
  linarith

/-- For an integer score of at least 300, the low point is an integer
between 300 and the score itself, in both scenario branches. -/
lemma lowPoint_cases (nd : SimData) (k : ℤ) (hk : nd.ficoScore = (k : ℚ))
    (h1 : 300 ≤ nd.ficoScore) :
    ∃ L : ℤ, lowPointOf nd = (L : ℚ) ∧ 300 ≤ (L : ℚ) ∧
      (L : ℚ) ≤ nd.ficoScore := by
  by_cases hpre : nd.scenarioType = "pre-enrollment"
  · obtain ⟨hp1, -⟩ := impact_mem nd (weightsOf nd)
    have hip : impactPenaltyOf nd =
        calculateWorstCaseImpact nd (weightsOf nd) := by
      unfold impactPenaltyOf; rw [if_pos hpre]
    have hp0 : 0 ≤ impactPenaltyOf nd := by rw [hip]; linarith
    refine ⟨max 300 (k - impactPenaltyOf nd), ?_, ?_, ?_⟩
    · unfold lowPointOf
      rw [if_pos hpre, hk]
      push_cast [Int.cast_max]
      rfl
    · have h := le_max_left (300:ℤ) (k - impactPenaltyOf nd)
      exact_mod_cast h
    · rw [hk]
      have h300 : (300:ℤ) ≤ k := by exact_mod_cast hk ▸ h1
      have h := max_le h300 (sub_le_self k hp0)
      exact_mod_cast h
  · refine ⟨k, ?_, ?_, le_of_eq hk.symm⟩
    · unfold lowPointOf; rw [if_neg hpre, hk]
    · rw [← hk]; exact h1

/-- C6 counterexample: a pre-enrollment record with ficoScore 2000 has all
weights and recoveryMonths nonnegative, yet the 850 cap pushes the
projected score far below the low point, refuting the claim as stated. -/
theorem extreme_fico_projection_below_low_point :
    0 ≤ (runSimulation extremeFico).recoveryMonths ∧
    0 ≤ (runSimulation extremeFico).weights.paymentHistory ∧
    0 ≤ (runSimulation extremeFico).weights.utilization ∧
    0 ≤ (runSimulation extremeFico).weights.accountAge ∧
    0 ≤ (runSimulation extremeFico).weights.creditMix ∧
    0 ≤ (runSimulation extremeFico).weights.newCredit ∧
    (runSimulation extremeFico).projectedScore <
      (runSimulation extremeFico).lowPointScore := by
  simp only [runSimulation, impactPenaltyOf, lowPointOf, recoveryMonthsOf,
    projectedScoreOf, totalPotentialGainOf, toolGainOf,
    calculateWorstCaseImpact, weightsOf, calculateWeights, adjustWeights,
    normalizeWeights, dtiOf, extremeFico, scenarioA, Weights.sum, roundTo4,
    jsRound]
  norm_num [min_def, max_def]

/-- C6 amended: for inputs whose score is an integer inside the documented
[300, 850] domain and whose recovery window is nonnegative, the projected
score never falls below the low point and all three milestone scores stay
inside [lowPointScore, projectedScore]; the milestone fields carry the
interpolation formulas with no further clamping. -/
theorem milestones_between_low_and_projected (nd : SimData) (k : ℤ)
    (hk : nd.ficoScore = (k : ℚ)) (h1 : 300 ≤ nd.ficoScore)
    (h2 : nd.ficoScore ≤ 850) (h3 : 0 ≤ recoveryMonthsOf nd) :
    (runSimulation nd).lowPointScore ≤ (runSimulation nd).projectedScore ∧
    (runSimulation nd).lowPointScore ≤ (runSimulation nd).milestoneDipScore ∧
    (runSimulation nd).milestoneDipScore ≤ (runSimulation nd).projectedScore ∧
    (runSimulation nd).lowPointScore ≤
      (runSimulation nd).milestoneStabilizationScore ∧
    (runSimulation nd).milestoneStabilizationScore ≤
      (runSimulation nd).projectedScore ∧
    (runSimulation nd).lowPointScore ≤
      (runSimulation nd).milestoneRecoveryScore ∧
    (runSimulation nd).milestoneRecoveryScore ≤
      (runSimulation nd).projectedScore := by
  obtain ⟨-, hlowf, hprojf, -, -, -, -, hdipf, hstabf, hrecf⟩ :=
    runSim_fields nd
  obtain ⟨L, hL, hL300, hLfico⟩ := lowPoint_cases nd k hk h1
  have hgain := gain_ge nd h3
  have hL850 : (L:ℚ) ≤ 850 := le_trans hLfico h2
  have hL850' : L ≤ (850:ℤ) := by exact_mod_cast hL850
  have hfl : L ≤ jsRound (lowPointOf nd + totalPotentialGainOf nd) := by
    unfold jsRound
    refine Int.le_floor.mpr ?_
    rw [hL]
    linarith
  have hproj_def : projectedScoreOf nd =
      ((min 850 (jsRound (lowPointOf nd + totalPotentialGainOf nd)) : ℤ) : ℚ) :=
    rfl
  have hPge : L ≤ min 850 (jsRound (lowPointOf nd + totalPotentialGainOf nd)) :=
    le_min hL850' hfl
  have hlowproj : lowPointOf nd ≤ projectedScoreOf nd := by
    have hq : (L:ℚ) ≤ ((min 850 (jsRound (lowPointOf nd +
        totalPotentialGainOf nd)) : ℤ) : ℚ) := by exact_mod_cast hPge
    rw [← hL] at hq
    rw [hproj_def]
    exact hq
  set P := min 850 (jsRound (lowPointOf nd + totalPotentialGainOf nd)) with hPdef
  have hg_eq : projectedScoreOf nd - lowPointOf nd = ((P - L : ℤ) : ℚ) := by
    rw [hproj_def, hL]; push_cast; ring
  have hg0 : (0:ℤ) ≤ P - L := by omega
  have hg0' : (0:ℚ) ≤ ((P - L : ℤ) : ℚ) := by exact_mod_cast hg0
  have hs015 : (0:ℤ) ≤ jsRound (((P - L : ℤ) : ℚ) * 0.15) := by
    unfold jsRound
    refine Int.le_floor.mpr ?_
    push_cast
    nlinarith
  have hs015' : jsRound (((P - L : ℤ) : ℚ) * 0.15) ≤ P - L := by
    unfold jsRound
    have h : (((P - L : ℤ) : ℚ) * 0.15 + 1/2) < ((P - L + 1 : ℤ) : ℚ) := by
      push_cast; linarith
    have h' := Int.floor_lt.mpr h
    omega
  have hs065 : (0:ℤ) ≤ jsRound (((P - L : ℤ) : ℚ) * 0.65) := by
    unfold jsRound
    refine Int.le_floor.mpr ?_
    push_cast
    nlinarith
  have hs065' : jsRound (((P - L : ℤ) : ℚ) * 0.65) ≤ P - L := by
    unfold jsRound
    have h : (((P - L : ℤ) : ℚ) * 0.65 + 1/2) < ((P - L + 1 : ℤ) : ℚ) := by
      push_cast; linarith
    have h' := Int.floor_lt.mpr h
    omega
  have hs015q : (0:ℚ) ≤ (jsRound (((P - L : ℤ) : ℚ) * 0.15) : ℚ) := by
    exact_mod_cast hs015
  have hs065q : (0:ℚ) ≤ (jsRound (((P - L : ℤ) : ℚ) * 0.65) : ℚ) := by
    exact_mod_cast hs065
  have hs015q' : (jsRound (((P - L : ℤ) : ℚ) * 0.15) : ℚ) ≤ ((P - L : ℤ) : ℚ) := by
    exact_mod_cast hs015'
  have hs065q' : (jsRound (((P - L : ℤ) : ℚ) * 0.65) : ℚ) ≤ ((P - L : ℤ) : ℚ) := by
    exact_mod_cast hs065'
  refine ⟨?_, ?_, ?_, ?_, ?_, ?_, ?_⟩
  · rw [hlowf, hprojf]; exact hlowproj
  · rw [hlowf, hdipf]
  · rw [hdipf, hprojf]; exact hlowproj
  · rw [hlowf, hstabf, hg_eq]
    refine le_min ?_ ?_
    · rw [hL]; exact hLfico
    · linarith
  · rw [hstabf, hprojf, hg_eq]
    refine le_trans (min_le_right _ _) ?_
    rw [hL, hproj_def]
    have hPL : ((P - L : ℤ) : ℚ) = (P : ℚ) - (L : ℚ) := by push_cast; ring
    linarith [hs015q', hPL]
  · rw [hlowf, hrecf, hg_eq, hL]
    linarith
  · rw [hrecf, hprojf, hg_eq, hL, hproj_def]
    have hPL : ((P - L : ℤ) : ℚ) = (P : ℚ) - (L : ℚ) := by push_cast; ring
    linarith [hs065q', hPL]

/-- C6 witness: the amended milestone ordering evaluated on worked
scenario A, whose score 650 is an integer in [300, 850]. -/
theorem milestones_between_low_and_projected_witness :
    (runSimulation scenarioA).lowPointScore ≤
      (runSimulation scenarioA).projectedScore ∧
    (runSimulation scenarioA).lowPointScore ≤
      (runSimulation scenarioA).milestoneDipScore ∧
    (runSimulation scenarioA).milestoneDipScore ≤
      (runSimulation scenarioA).projectedScore ∧
    (runSimulation scenarioA).lowPointScore ≤
      (runSimulation scenarioA).milestoneStabilizationScore ∧
    (runSimulation scenarioA).milestoneStabilizationScore ≤
      (runSimulation scenarioA).projectedScore ∧
    (runSimulation scenarioA).lowPointScore ≤
      (runSimulation scenarioA).milestoneRecoveryScore ∧
    (runSimulation scenarioA).milestoneRecoveryScore ≤
      (runSimulation scenarioA).projectedScore := by
  exact milestones_between_low_and_projected scenarioA 650
    (by norm_num [scenarioA]) (by norm_num [scenarioA])
    (by norm_num [scenarioA])
    (by norm_num [recoveryMonthsOf, scenarioA])

end CreditSim
